import Mathlib

/-
Verification development for the ICMPv6 control-message engine
(src/src/core/net/icmp6.cpp of the embedded IPv6 stack).

The engine is shallowly embedded: the Icmp class state becomes IcmpState,
the Message collaborator becomes a byte list with a read cursor, fallible
collaborator operations (allocation, SetLength, Prepend, SendDatagram) are
resolved by an outcome oracle Ip6Env, and the observable side effects
(allocations, sends, frees, handler invocations) are recorded as event
traces.
-/

namespace Icmp6

/-- Error codes (ThreadError) used by the engine: kThreadError_None,
kThreadError_Drop, kThreadError_NoBufs, kThreadError_Busy. -/
inductive ThreadError where
  | none
  | drop
  | noBufs
  | busy
deriving DecidableEq

/-- Modelled from the spec: the Message collaborator (message.hpp is not in
the sources) — an ordered byte buffer with a mutable read cursor (offset)
and a length equal to the number of stored bytes. -/
structure Message where
  data : List Nat
  offset : Nat
deriving DecidableEq

/-- Modelled from the spec: Message read(offset, size) — read a byte range
without advancing the cursor. -/
def readBytes (m : Message) (start count : Nat) : List Nat :=
  (m.data.drop start).take count

/-- Modelled from the spec: Message write(offset, bytes) — overwrite a byte
range in place, leaving length and cursor unchanged. -/
def writeBytes (m : Message) (start : Nat) (bs : List Nat) : Message :=
  { m with data := m.data.take start ++ bs ++ m.data.drop (start + bs.length) }

/-- 16-bit ones-complement addition with end-around carry, on values below
65536. -/
def onesAdd (a b : Nat) : Nat :=
  (a + b) % 65536 + (a + b) / 65536

/-- Modelled from the spec: the checksum fold over a byte sequence —
big-endian 16-bit words accumulated with ones-complement addition, an odd
trailing byte padded as a high byte. -/
def foldWords (seed : Nat) : List Nat → Nat
  | [] => seed
  | [b] => onesAdd seed (b * 256)
  | b1 :: b2 :: rest => foldWords (onesAdd seed (b1 * 256 + b2)) rest

/-- Modelled from the spec: Message UpdateChecksum(seed, offset, count) —
the incremental checksum fold over a byte range of the message. -/
def msgFold (m : Message) (seed start count : Nat) : Nat :=
  foldWords seed (readBytes m start count)

/-- Modelled from the spec: Ip6 ComputePseudoheaderChecksum(src, dst,
length, proto) — the pseudo-header seed folding the source address bytes,
the destination address bytes, the upper-layer length and the protocol
number. -/
def computePseudoheaderChecksum (src dst : List Nat) (length proto : Nat) : Nat :=
  foldWords (foldWords (foldWords 0 src) dst) [length / 256, length % 256, 0, proto]

/-- ICMPv6 protocol number (kProtoIcmp6 = 58). -/
def kProtoIcmp6 : Nat := 58

/-- Modelled from the spec: IcmpHeader type code for destination
unreachable (icmp6.hpp is not in the sources; RFC 4443 value). -/
def kTypeDstUnreach : Nat := 1

/-- Modelled from the spec: IcmpHeader type code for echo request. -/
def kTypeEchoRequest : Nat := 128

/-- Modelled from the spec: IcmpHeader type code for echo reply. -/
def kTypeEchoReply : Nat := 129

/-- Modelled from the spec: IcmpHeader GetDataOffset() = 8, the byte offset
where type-specific payload begins (the full 8-byte header). -/
def dataOffset : Nat := 8

/-- Modelled from the spec: IcmpHeader GetChecksumOffset() = 2. -/
def checksumOffset : Nat := 2

/-- Modelled from the spec: the 8-byte wire encoding of an IcmpHeader —
type, code, checksum, identifier, sequence, multi-byte fields big-endian. -/
def encodeHeader (type code cksum ident seq : Nat) : List Nat :=
  [type, code, cksum / 256, cksum % 256, ident / 256, ident % 256, seq / 256, seq % 256]

/-- MessageInfo: peer address, local (socket) address, interface id. -/
structure MessageInfo where
  peerAddr : List Nat
  sockAddr : List Nat
  interfaceId : Nat
deriving DecidableEq

/-- Observable events of the engine toward its collaborators: a successful
message allocation, a successful hand-off to SendDatagram (with the wire
bytes), a Free of a locally allocated message, a destination-unreachable
handler invocation, an echo-reply callback invocation. -/
inductive Event where
  | alloc
  | sent (bytes : List Nat)
  | freed
  | dstUnreach (h : Nat)
  | echoReply (h : Nat)
deriving DecidableEq

/-- Outcome oracle for the fallible collaborator operations: whether
NewMessage succeeds, whether SetLength succeeds, whether Prepend succeeds,
and the result of SendDatagram (ThreadError.none for success). -/
structure Ip6Env where
  newMessageOk : Bool
  setLengthOk : Bool
  prependOk : Bool
  sendResult : ThreadError
deriving DecidableEq

/-- State of the Icmp engine: the intrusive handler chain (front first),
the 16-bit echo sequence counter, the optional echo-reply handler, the
echo-enabled flag. Handlers are identified by their handle (a number
standing for the node address). -/
structure IcmpState where
  handlers : List Nat
  echoSequence : Nat
  echoReplyHandler : Option Nat
  isEchoEnabled : Bool
deriving DecidableEq

/-- Icmp::Icmp — the freshly constructed engine: no handlers, sequence
counter 1, no echo-reply handler, echo enabled. -/
def freshIcmp : IcmpState :=
  { handlers := [], echoSequence := 1, echoReplyHandler := Option.none, isEchoEnabled := true }

/-- Icmp::RegisterCallbacks — scan the chain by handle identity; if the
handle is already present fail with Busy (AlreadyRegistered) without
mutating; otherwise push the handler to the front of the chain. -/
def registerCallbacks (st : IcmpState) (h : Nat) : ThreadError × IcmpState :=
  if h ∈ st.handlers then (ThreadError.busy, st)
  else (ThreadError.none, { st with handlers := h :: st.handlers })

/-- Icmp::SetEchoReplyHandler — store the callback and its context. -/
def setEchoReplyHandler (st : IcmpState) (h : Nat) : IcmpState :=
  { st with echoReplyHandler := Option.some h }

/-- Icmp::SendEchoRequest — stamp a header with type EchoRequest, id 1 and
sequence = current counter (the counter is post-incremented with 16-bit
wrap before any fallible step); prepend the 8-byte header, reset the
message offset to 0, and hand the message to SendDatagram with protocol
58. On Prepend failure the error is NoBufs and the message is untouched. -/
def sendEchoRequest (st : IcmpState) (env : Ip6Env) (msg : Message) (_info : MessageInfo) :
    ThreadError × IcmpState × Message × List Event :=
  let seq := st.echoSequence
  let st1 : IcmpState := { st with echoSequence := (st.echoSequence + 1) % 65536 }
  if env.prependOk then
    let msg1 : Message := { data := encodeHeader kTypeEchoRequest 0 0 1 seq ++ msg.data, offset := 0 }
    if env.sendResult = ThreadError.none then
      (ThreadError.none, st1, msg1, [Event.sent msg1.data])
    else
      (env.sendResult, st1, msg1, [])
  else
    (ThreadError.noBufs, st1, msg, [])

/-- Icmp::HandleEchoRequest — when echo is enabled: allocate a reply
message, size it to header + payload, write an Init-ed header with type
EchoReply at offset 0, mirror the request payload after the header, and
send. The exit block frees the reply only when the exit error is nonzero;
the SetLength call (source line 211) is wrapped in SuccessOrExit WITHOUT
assigning the error variable, so a SetLength failure exits with error
still None and the allocated reply is not freed. -/
def handleEchoRequest (st : IcmpState) (env : Ip6Env) (req : Message) (_info : MessageInfo) :
    ThreadError × List Event :=
  if st.isEchoEnabled then
    if env.newMessageOk then
      let payloadLength := req.data.length - req.offset - dataOffset
      if env.setLengthOk then
        let reply0 : Message := { data := List.replicate (dataOffset + payloadLength) 0, offset := 0 }
        let reply1 := writeBytes reply0 0 (encodeHeader kTypeEchoReply 0 0 0 0)
        let reply2 := writeBytes reply1 dataOffset
          (readBytes req (req.offset + dataOffset) payloadLength)
        if env.sendResult = ThreadError.none then
          (ThreadError.none, [Event.alloc, Event.sent reply2.data])
        else
          (env.sendResult, [Event.alloc, Event.freed])
      else
        (ThreadError.none, [Event.alloc])
    else
      (ThreadError.none, [])
  else
    (ThreadError.none, [])

/-- Icmp::HandleEchoReply — invoke the registered reply callback only when
echo is enabled and a callback is set; always return None. -/
def handleEchoReply (st : IcmpState) : ThreadError × List Event :=
  match st.echoReplyHandler with
  | Option.some h =>
      if st.isEchoEnabled then (ThreadError.none, [Event.echoReply h])
      else (ThreadError.none, [])
  | Option.none => (ThreadError.none, [])

/-- Icmp::HandleDstUnreach — advance the message offset past the 8-byte
ICMP header (MoveOffset, not restored), then invoke every registered
handler, iterating the chain from the front. -/
def handleDstUnreach (st : IcmpState) (msg : Message) : ThreadError × Message × List Event :=
  (ThreadError.none, { msg with offset := msg.offset + dataOffset },
   st.handlers.map Event.dstUnreach)

/-- Icmp::HandleMessage — the dispatcher: length floor (payload at least 8
bytes, else Drop), header read at the cursor, pseudo-header checksum
verification (on failure exit silently with error still None — the
VerifyOrExit action at source line 163 is empty), then dispatch on the
header type byte; unknown types fall through to a None return. -/
def handleMessage (st : IcmpState) (env : Ip6Env) (msg : Message) (info : MessageInfo) :
    ThreadError × Message × List Event :=
  let payloadLength := msg.data.length - msg.offset
  if payloadLength < dataOffset then
    (ThreadError.drop, msg, [])
  else
    let checksum := msgFold msg
      (computePseudoheaderChecksum info.peerAddr info.sockAddr payloadLength kProtoIcmp6)
      msg.offset payloadLength
    if checksum = 65535 then
      let t := msg.data.getD msg.offset 0
      if t = kTypeEchoRequest then
        let r := handleEchoRequest st env msg info
        (r.1, msg, r.2)
      else if t = kTypeEchoReply then
        let r := handleEchoReply st
        (r.1, msg, r.2)
      else if t = kTypeDstUnreach then
        handleDstUnreach st msg
      else
        (ThreadError.none, msg, [])
    else
      (ThreadError.none, msg, [])

/-- Icmp::UpdateChecksum — fold the seed over the range from the current
offset to the end of the message; complement the fold unless it is already
0xffff; store the result big-endian at offset + checksumOffset. -/
def updateChecksum (msg : Message) (seed : Nat) : ThreadError × Message :=
  let c := msgFold msg seed msg.offset (msg.data.length - msg.offset)
  let c1 := if c ≠ 65535 then 65535 - c else c
  (ThreadError.none, writeBytes msg (msg.offset + checksumOffset) [c1 / 256, c1 % 256])

/-- Driver for the sequence-monotonicity claim: run n successive
sendEchoRequest calls, collecting the sequence field stamped into each
produced wire message (big-endian bytes 6 and 7). -/
def seqField (m : Message) : Nat :=
  m.data.getD 6 0 * 256 + m.data.getD 7 0

/-- Iterate sendEchoRequest n times from a state, returning the list of
stamped sequence fields and the final state. -/
def runEcho (env : Ip6Env) (msg : Message) (info : MessageInfo) :
    Nat → IcmpState → List Nat × IcmpState
  | 0, st => ([], st)
  | Nat.succ n, st =>
      let r := sendEchoRequest st env msg info
      let rest := runEcho env msg info n r.2.1
      (seqField r.2.2.1 :: rest.1, rest.2)

/-- Register a list of handlers in order. -/
def registerAll (st : IcmpState) : List Nat → IcmpState
  | [] => st
  | h :: rest => registerAll (registerCallbacks st h).2 rest

/-- Claim C7: an inbound message whose payload (length minus offset) is
strictly below 8 bytes makes handleMessage return Drop at once — the
message is untouched and the event trace is empty (no header read matters,
no handler or sink invoked, no buffer allocated). -/
theorem c7_length_floor_drop (st : IcmpState) (env : Ip6Env) (msg : Message)
    (info : MessageInfo) (h : msg.data.length - msg.offset < 8) :
    handleMessage st env msg info = (ThreadError.drop, msg, []) := by
  simp [handleMessage, dataOffset, h]

/-- Witness for c7_length_floor_drop at a concrete 3-byte message. -/
theorem c7_witness :
    handleMessage freshIcmp (Ip6Env.mk true true true ThreadError.none)
        (Message.mk [1, 2, 3] 0) (MessageInfo.mk [] [] 0)
      = (ThreadError.drop, Message.mk [1, 2, 3] 0, []) :=
  c7_length_floor_drop _ _ _ _ (by decide)

/-- Claim C5: a handler already present in the registry is rejected with
Busy (AlreadyRegistered) and the registry is unchanged; registering a
fresh handle succeeds, a second registration of the same handle is
rejected without mutation, and the registry then holds exactly one entry
for that handle (comparison is by handle identity). -/
theorem c5_duplicate_registration (st : IcmpState) (h : Nat) :
    (h ∈ st.handlers → registerCallbacks st h = (ThreadError.busy, st))
    ∧ (h ∉ st.handlers →
        (registerCallbacks st h).1 = ThreadError.none
        ∧ registerCallbacks (registerCallbacks st h).2 h
            = (ThreadError.busy, (registerCallbacks st h).2)
        ∧ (registerCallbacks st h).2.handlers.count h = 1) := by
  constructor
  · intro hm
    simp [registerCallbacks, hm]
  · intro hm
    refine ⟨by simp [registerCallbacks, hm], by simp [registerCallbacks, hm], ?_⟩
    simp [registerCallbacks, hm, List.count_cons, List.count_eq_zero.mpr hm]

/-- Witness for c5_duplicate_registration: a populated registry rejects
its member, and a fresh registry accepts then rejects handle 7, keeping a
single entry. -/
theorem c5_witness :
    registerCallbacks (IcmpState.mk [7] 1 Option.none true) 7
        = (ThreadError.busy, IcmpState.mk [7] 1 Option.none true)
    ∧ (registerCallbacks freshIcmp 7).1 = ThreadError.none
    ∧ registerCallbacks (registerCallbacks freshIcmp 7).2 7
        = (ThreadError.busy, (registerCallbacks freshIcmp 7).2)
    ∧ (registerCallbacks freshIcmp 7).2.handlers.count 7 = 1 := by
  refine ⟨(c5_duplicate_registration (IcmpState.mk [7] 1 Option.none true) 7).1 (by decide), ?_⟩
  have h := (c5_duplicate_registration freshIcmp 7).2 (by decide)
  exact ⟨h.1, h.2.1, h.2.2⟩

/-- Claim C4 counterexample: with the header prepend failing,
sendEchoRequest on a fresh engine reports NoBufs, yet the engine state is
changed — the echo sequence counter moved from 1 to 2, refuting "leaves
the engine state unchanged". -/
theorem c4_counterexample :
    (sendEchoRequest freshIcmp (Ip6Env.mk true true false ThreadError.none)
        (Message.mk [170] 0) (MessageInfo.mk [] [] 0)).1 = ThreadError.noBufs
    ∧ (sendEchoRequest freshIcmp (Ip6Env.mk true true false ThreadError.none)
        (Message.mk [170] 0) (MessageInfo.mk [] [] 0)).2.1.echoSequence = 2
    ∧ freshIcmp.echoSequence = 1 := by decide

/-- Claim C4 (amended): when the header prepend fails, sendEchoRequest
returns NoBufs, sends nothing and leaves the message unchanged, but the
echo sequence counter is nevertheless incremented by one modulo 65536,
because the counter is stamped (post-increment) before the prepend is
attempted. -/
theorem c4_amended_prepend_failure (st : IcmpState) (env : Ip6Env) (msg : Message)
    (info : MessageInfo) (hp : env.prependOk = false) :
    sendEchoRequest st env msg info
      = (ThreadError.noBufs,
         { st with echoSequence := (st.echoSequence + 1) % 65536 }, msg, []) := by
  simp [sendEchoRequest, hp]

/-- Witness for c4_amended_prepend_failure at a concrete engine and
message. -/
theorem c4_witness :
    sendEchoRequest freshIcmp (Ip6Env.mk true true false ThreadError.none)
        (Message.mk [170] 0) (MessageInfo.mk [] [] 0)
      = (ThreadError.noBufs, IcmpState.mk [] 2 Option.none true, Message.mk [170] 0, []) :=
  (c4_amended_prepend_failure freshIcmp (Ip6Env.mk true true false ThreadError.none)
    (Message.mk [170] 0) (MessageInfo.mk [] [] 0) rfl).trans (by decide)

/-- Claim C3 (code bug evaluation): with echo enabled, allocation
succeeding and SetLength on the reply failing, handleEchoRequest exits
with error None and a trace holding the allocation but no Event.freed —
the allocated reply is neither sent nor freed, because the SuccessOrExit
around SetLength (source line 211) does not assign the error variable, so
the exit block sees error == None and skips Free. -/
theorem c3_setlength_leak :
    handleEchoRequest freshIcmp (Ip6Env.mk true false true ThreadError.none)
        (Message.mk [128, 0, 0, 0, 0, 1, 0, 5, 170] 0) (MessageInfo.mk [] [] 0)
      = (ThreadError.none, [Event.alloc])
    ∧ Event.freed ∉ [Event.alloc] := by decide

/-- Claim C1 counterexample: a concrete 8-byte message whose checksum fold
is not 0xFFFF is discarded by handleMessage with return value None, not
Drop — the empty VerifyOrExit action at source line 163 leaves the error
at kThreadError_None, refuting "returns the Drop error". -/
theorem c1_counterexample :
    handleMessage freshIcmp (Ip6Env.mk true true true ThreadError.none)
        (Message.mk [128, 0, 0, 0, 0, 0, 0, 0] 0)
        (MessageInfo.mk (List.replicate 16 0) (List.replicate 16 0) 0)
      = (ThreadError.none, Message.mk [128, 0, 0, 0, 0, 0, 0, 0] 0, [])
    ∧ 8 ≤ (Message.mk [128, 0, 0, 0, 0, 0, 0, 0] 0).data.length
          - (Message.mk [128, 0, 0, 0, 0, 0, 0, 0] 0).offset
    ∧ msgFold (Message.mk [128, 0, 0, 0, 0, 0, 0, 0] 0)
        (computePseudoheaderChecksum (List.replicate 16 0) (List.replicate 16 0) 8 kProtoIcmp6)
        0 8 ≠ 65535
    ∧ ThreadError.none ≠ ThreadError.drop := by decide

/-- Claim C1 (amended): an inbound message of at least 8 payload bytes
whose pseudo-header checksum fold is not 0xFFFF is discarded silently —
handleMessage invokes no type handler, generates no outbound message and
leaves the message unchanged — but it returns None (success), not Drop. -/
theorem c1_amended_checksum_silent_discard (st : IcmpState) (env : Ip6Env)
    (msg : Message) (info : MessageInfo)
    (hlen : 8 ≤ msg.data.length - msg.offset)
    (hck : msgFold msg
        (computePseudoheaderChecksum info.peerAddr info.sockAddr
          (msg.data.length - msg.offset) kProtoIcmp6)
        msg.offset (msg.data.length - msg.offset) ≠ 65535) :
    handleMessage st env msg info = (ThreadError.none, msg, []) := by
  have h8 : ¬(msg.data.length - msg.offset < 8) := by omega
  simp [handleMessage, dataOffset, h8, hck]

/-- Witness for c1_amended_checksum_silent_discard at a concrete
corrupted message. -/
theorem c1_witness :
    handleMessage freshIcmp (Ip6Env.mk true true true ThreadError.none)
        (Message.mk [77, 0, 0, 0, 0, 0, 0, 0] 0)
        (MessageInfo.mk (List.replicate 16 0) (List.replicate 16 0) 0)
      = (ThreadError.none, Message.mk [77, 0, 0, 0, 0, 0, 0, 0] 0, []) :=
  c1_amended_checksum_silent_discard _ _ _ _ (by decide) (by decide)

/-- Claim C10: handleMessage leaves the caller message untouched on the
short-length path, on the checksum-failure path and on every non-dst-unreach
dispatch (echo request, echo reply, unknown type); only a dispatched
DestinationUnreachable message has its offset advanced by 8 (and its bytes
unchanged), and the offset is not restored afterwards. -/
theorem c10_offset_effect (st : IcmpState) (env : Ip6Env) (msg : Message)
    (info : MessageInfo) :
    (msg.data.length - msg.offset < 8 → (handleMessage st env msg info).2.1 = msg)
    ∧ (8 ≤ msg.data.length - msg.offset →
        msgFold msg
            (computePseudoheaderChecksum info.peerAddr info.sockAddr
              (msg.data.length - msg.offset) kProtoIcmp6)
            msg.offset (msg.data.length - msg.offset) ≠ 65535 →
        (handleMessage st env msg info).2.1 = msg)
    ∧ (8 ≤ msg.data.length - msg.offset →
        msgFold msg
            (computePseudoheaderChecksum info.peerAddr info.sockAddr
              (msg.data.length - msg.offset) kProtoIcmp6)
            msg.offset (msg.data.length - msg.offset) = 65535 →
        msg.data.getD msg.offset 0 = kTypeDstUnreach →
        (handleMessage st env msg info).2.1.offset = msg.offset + 8
        ∧ (handleMessage st env msg info).2.1.data = msg.data)
    ∧ (8 ≤ msg.data.length - msg.offset →
        msgFold msg
            (computePseudoheaderChecksum info.peerAddr info.sockAddr
              (msg.data.length - msg.offset) kProtoIcmp6)
            msg.offset (msg.data.length - msg.offset) = 65535 →
        msg.data.getD msg.offset 0 ≠ kTypeDstUnreach →
        (handleMessage st env msg info).2.1 = msg) := by
  refine ⟨?_, ?_, ?_, ?_⟩
  · intro hlen
    simp [handleMessage, dataOffset, hlen]
  · intro hlen hck
    have h8 : ¬(msg.data.length - msg.offset < 8) := by omega
    simp [handleMessage, dataOffset, h8, hck]
  · intro hlen hck ht
    have h8 : ¬(msg.data.length - msg.offset < 8) := by omega
    have ht2 : msg.data[msg.offset]?.getD 0 = kTypeDstUnreach := by
      simpa [List.getD] using ht
    simp [handleMessage, dataOffset, h8, hck, ht2, kTypeDstUnreach, kTypeEchoRequest,
      kTypeEchoReply, handleDstUnreach]
  · intro hlen hck ht
    have h8 : ¬(msg.data.length - msg.offset < 8) := by omega
    have ht2 : msg.data[msg.offset]?.getD 0 ≠ kTypeDstUnreach := by
      simpa [List.getD] using ht
    by_cases h1 : msg.data[msg.offset]?.getD 0 = kTypeEchoRequest
    · simp [handleMessage, dataOffset, h8, hck, h1]
    · by_cases h2 : msg.data[msg.offset]?.getD 0 = kTypeEchoReply
      · simp [handleMessage, dataOffset, h8, hck, h1, h2, kTypeEchoRequest, kTypeEchoReply]
      · simp [handleMessage, dataOffset, h8, hck, h1, h2, ht2]

/-- Witness for c10_offset_effect: a valid destination-unreachable message
comes back with its offset advanced by 8 and its bytes unchanged. -/
theorem c10_witness :
    (handleMessage freshIcmp (Ip6Env.mk true true true ThreadError.none)
        (Message.mk [1, 0, 254, 189, 0, 0, 0, 0] 0)
        (MessageInfo.mk (List.replicate 16 0) (List.replicate 16 0) 0)).2.1.offset
      = (Message.mk [1, 0, 254, 189, 0, 0, 0, 0] 0).offset + 8
    ∧ (handleMessage freshIcmp (Ip6Env.mk true true true ThreadError.none)
        (Message.mk [1, 0, 254, 189, 0, 0, 0, 0] 0)
        (MessageInfo.mk (List.replicate 16 0) (List.replicate 16 0) 0)).2.1.data
      = (Message.mk [1, 0, 254, 189, 0, 0, 0, 0] 0).data :=
  (c10_offset_effect freshIcmp (Ip6Env.mk true true true ThreadError.none)
      (Message.mk [1, 0, 254, 189, 0, 0, 0, 0] 0)
      (MessageInfo.mk (List.replicate 16 0) (List.replicate 16 0) 0)).2.2.1
    (by decide) (by decide) (by decide)

/-- Registering a list of pairwise-distinct handlers, all absent from the
current chain, prepends them one by one: the final chain is the reverse of
the registration order, on top of the previous chain. -/
theorem registerAll_handlers (hs : List Nat) :
    ∀ st : IcmpState, hs.Nodup → (∀ h ∈ hs, h ∉ st.handlers) →
      (registerAll st hs).handlers = hs.reverse ++ st.handlers := by
  induction hs with
  | nil => intro st _ _; simp [registerAll]
  | cons h rest ih =>
      intro st hnd hfresh
      have hmem : h ∉ st.handlers := hfresh h (by simp)
      have hstep : (registerCallbacks st h).2 = { st with handlers := h :: st.handlers } := by
        simp [registerCallbacks, hmem]
      have hnc := List.nodup_cons.mp hnd
      rw [registerAll, hstep, ih _ hnc.2 ?fresh]
      · simp
      case fresh =>
        intro x hx
        simp only [List.mem_cons, not_or]
        exact ⟨fun hxh => hnc.1 (hxh ▸ hx), hfresh x (List.mem_cons_of_mem h hx)⟩

/-- Claim C9: after successfully registering distinct handlers h1..hn in
order onto a fresh engine, the chain is their reverse, and the
destination-unreachable fan-out invokes exactly the registered handlers,
in reverse registration order (hn first, h1 last), each exactly once. -/
theorem c9_fanout_reverse_order (hs : List Nat) (msg : Message) (hnd : hs.Nodup) :
    (registerAll freshIcmp hs).handlers = hs.reverse
    ∧ (handleDstUnreach (registerAll freshIcmp hs) msg).2.2
        = hs.reverse.map Event.dstUnreach
    ∧ ∀ h ∈ hs,
        ((handleDstUnreach (registerAll freshIcmp hs) msg).2.2).count (Event.dstUnreach h)
          = 1 := by
  have hinj : Function.Injective Event.dstUnreach := by
    intro a b hab
    simpa using hab
  have hh : (registerAll freshIcmp hs).handlers = hs.reverse := by
    have h := registerAll_handlers hs freshIcmp hnd (by intro x _; simp [freshIcmp])
    simpa [freshIcmp] using h
  refine ⟨hh, by simp [handleDstUnreach, hh], ?_⟩
  intro h hm
  simp only [handleDstUnreach, hh]
  rw [List.count_map_of_injective _ Event.dstUnreach hinj]
  exact List.count_eq_one_of_mem (List.nodup_reverse.mpr hnd) (List.mem_reverse.mpr hm)

/-- Witness for c9_fanout_reverse_order: registering 3, 5, 9 in order
yields fan-out 9, 5, 3, with handler 3 invoked exactly once. -/
theorem c9_witness :
    (handleDstUnreach (registerAll freshIcmp [3, 5, 9]) (Message.mk [] 0)).2.2
      = [Event.dstUnreach 9, Event.dstUnreach 5, Event.dstUnreach 3]
    ∧ ((handleDstUnreach (registerAll freshIcmp [3, 5, 9]) (Message.mk [] 0)).2.2).count
        (Event.dstUnreach 3) = 1 := by
  have h := c9_fanout_reverse_order [3, 5, 9] (Message.mk [] 0) (by decide)
  exact ⟨h.2.1.trans (by decide), h.2.2 3 (by decide)⟩

/-- The sequence fields stamped by n successive successful sendEchoRequest
calls, starting from any engine state with an in-range counter, are the
counter values s, s + 1, ..., s + n - 1 reduced modulo 65536. -/
theorem runEcho_seq (env : Ip6Env) (msg : Message) (info : MessageInfo)
    (hp : env.prependOk = true) (hsr : env.sendResult = ThreadError.none) :
    ∀ (n : Nat) (st : IcmpState), st.echoSequence < 65536 →
      (runEcho env msg info n st).1
        = (List.range n).map (fun i => (st.echoSequence + i) % 65536) := by
  intro n
  induction n with
  | zero => intro st _; simp [runEcho]
  | succ n ih =>
      intro st hlt
      have ihs := ih { st with echoSequence := (st.echoSequence + 1) % 65536 }
        (Nat.mod_lt _ (by norm_num))
      have hseq : seqField
          (Message.mk (encodeHeader kTypeEchoRequest 0 0 1 st.echoSequence ++ msg.data) 0)
          = st.echoSequence := by
        simp [seqField, encodeHeader, kTypeEchoRequest, List.getD]
        omega
      simp only [runEcho, sendEchoRequest, hp, hsr, eq_self_iff_true, if_true]
      rw [hseq, ihs, List.range_succ_eq_map, List.map_cons, List.map_map]
      congr 1
      · omega
      · have hfun : ((fun i => (st.echoSequence + i) % 65536) ∘ Nat.succ)
            = fun i => ((st.echoSequence + 1) % 65536 + i) % 65536 := by
          funext i
          simp only [Function.comp]
          omega
        rw [hfun]

/-- Claim C6: N consecutive successful sendEchoRequest (build_echo_request)
calls on a freshly constructed engine stamp sequence numbers 1, 2, ..., N
modulo 65536 into the sent wire messages: the counter starts at 1, each
call stamps the current value and then increments it, and it wraps
silently past 65535. -/
theorem c6_sequence_monotonic (env : Ip6Env) (msg : Message) (info : MessageInfo)
    (hp : env.prependOk = true) (hsr : env.sendResult = ThreadError.none) (n : Nat) :
    (runEcho env msg info n freshIcmp).1
      = (List.range n).map (fun i => (i + 1) % 65536) := by
  rw [runEcho_seq env msg info hp hsr n freshIcmp (by norm_num [freshIcmp])]
  refine List.map_congr_left fun i _ => ?_
  simp only [freshIcmp]
  omega

/-- Witness for c6_sequence_monotonic: three calls stamp 1, 2, 3. -/
theorem c6_witness :
    (runEcho (Ip6Env.mk true true true ThreadError.none) (Message.mk [] 0)
        (MessageInfo.mk [] [] 0) 3 freshIcmp).1 = [1, 2, 3] :=
  (c6_sequence_monotonic (Ip6Env.mk true true true ThreadError.none) (Message.mk [] 0)
      (MessageInfo.mk [] [] 0) rfl rfl 3).trans (by decide)

/-- The reply assembled by handleEchoRequest: writing the 8-byte EchoReply
header into the zero-sized buffer and then copying the request payload
after it yields exactly the header followed by the request bytes past
offset + 8. -/
theorem reply_bytes (req : Message) :
    (writeBytes
        (writeBytes
          (Message.mk
            (List.replicate (dataOffset + (req.data.length - req.offset - dataOffset)) 0) 0)
          0 (encodeHeader kTypeEchoReply 0 0 0 0))
        dataOffset
        (readBytes req (req.offset + dataOffset)
          (req.data.length - req.offset - dataOffset))).data
      = encodeHeader kTypeEchoReply 0 0 0 0 ++ req.data.drop (req.offset + dataOffset) := by
  simp only [dataOffset]
  have hP : readBytes req (req.offset + 8) (req.data.length - req.offset - 8)
      = req.data.drop (req.offset + 8) := by
    unfold readBytes
    apply List.take_of_length_le
    simp only [List.length_drop]
    omega
  have hPlen : (req.data.drop (req.offset + 8)).length = req.data.length - req.offset - 8 := by
    simp only [List.length_drop]
    omega
  have hH8 : (encodeHeader kTypeEchoReply 0 0 0 0).length = 8 := rfl
  have hdropR : (List.replicate (8 + (req.data.length - req.offset - 8)) (0 : Nat)).drop 8
      = List.replicate (req.data.length - req.offset - 8) 0 := by
    rw [List.replicate_add]
    have h8 : (8 : Nat) = (List.replicate 8 (0 : Nat)).length := by simp
    conv_lhs => rw [h8]
    exact List.drop_left _ _
  have htake : ∀ Y : List Nat,
      ((encodeHeader kTypeEchoReply 0 0 0 0) ++ Y).take 8
        = encodeHeader kTypeEchoReply 0 0 0 0 := by
    intro Y
    have h8 : (8 : Nat) = (encodeHeader kTypeEchoReply 0 0 0 0).length := rfl
    rw [h8]
    exact List.take_left _ _
  rw [hP]
  simp only [writeBytes, List.take_zero, List.nil_append, Nat.zero_add, hH8, hPlen, hdropR,
    htake]
  have hdropNil :
      ((encodeHeader kTypeEchoReply 0 0 0 0)
          ++ List.replicate (req.data.length - req.offset - 8) (0 : Nat)).drop
        (8 + (req.data.length - req.offset - 8)) = [] := by
    apply List.drop_eq_nil_of_le
    simp [hH8]
  rw [hdropNil, List.append_nil]

/-- Claim C2 counterexample: an echo request with identifier 1 and
sequence 5 and payload [170], handled with echo enabled and every
collaborator operation succeeding, yields a reply that mirrors the
payload and has type EchoReply, but whose identifier and sequence bytes
are zero rather than the request values — the reply header is written
from an Init-ed header with only the type set. -/
theorem c2_counterexample :
    handleEchoRequest freshIcmp (Ip6Env.mk true true true ThreadError.none)
        (Message.mk [128, 0, 0, 0, 0, 1, 0, 5, 170] 0) (MessageInfo.mk [] [] 0)
      = (ThreadError.none, [Event.alloc, Event.sent [129, 0, 0, 0, 0, 0, 0, 0, 170]])
    ∧ [129, 0, 0, 0, 0, 0, 0, 0, 170].getD 7 0
        ≠ [128, 0, 0, 0, 0, 1, 0, 5, 170].getD 7 0 := by decide

/-- Claim C2 (amended): with echo enabled and allocation, sizing and send
all succeeding, handleEchoRequest sends exactly one reply whose bytes are
the 8-byte EchoReply header — type 129 with code, checksum, identifier
and sequence all zero, as produced by Init plus SetType — followed by a
byte-for-byte mirror of the request payload (the request bytes past
offset + 8); the identifier and sequence of the request are not copied
into the reply. -/
theorem c2_amended_echo_mirror (st : IcmpState) (env : Ip6Env) (req : Message)
    (info : MessageInfo) (hEn : st.isEchoEnabled = true)
    (hAlloc : env.newMessageOk = true) (hLen : env.setLengthOk = true)
    (hSend : env.sendResult = ThreadError.none) :
    handleEchoRequest st env req info
      = (ThreadError.none,
         [Event.alloc,
          Event.sent (encodeHeader kTypeEchoReply 0 0 0 0
            ++ req.data.drop (req.offset + dataOffset))]) := by
  simp only [handleEchoRequest, hEn, hAlloc, hLen, hSend, eq_self_iff_true, if_true]
  rw [reply_bytes]

/-- Witness for c2_amended_echo_mirror at a concrete request. -/
theorem c2_witness :
    handleEchoRequest freshIcmp (Ip6Env.mk true true true ThreadError.none)
        (Message.mk [128, 0, 0, 0, 0, 2, 0, 9, 55, 66] 0) (MessageInfo.mk [] [] 0)
      = (ThreadError.none, [Event.alloc, Event.sent [129, 0, 0, 0, 0, 0, 0, 0, 55, 66]]) :=
  (c2_amended_echo_mirror freshIcmp (Ip6Env.mk true true true ThreadError.none)
      (Message.mk [128, 0, 0, 0, 0, 2, 0, 9, 55, 66] 0) (MessageInfo.mk [] [] 0)
      rfl rfl rfl rfl).trans (by decide)

/-- The bytes of a two-byte field written after a block: indexing an
appended list at the length of its left part and one past it returns the
two written bytes. -/
theorem getD_after (A : List Nat) (b0 b1 : Nat) (C : List Nat) :
    ((A ++ ([b0, b1] ++ C)).getD A.length 0 = b0)
    ∧ ((A ++ ([b0, b1] ++ C)).getD (A.length + 1) 0 = b1) := by
  induction A with
  | nil => simp [List.getD]
  | cons a A ih => simpa [List.getD_cons_succ] using ih

/-- Variant of getD_after with the index given as a separate value equal
to the length of the left part. -/
theorem getD_pair (A : List Nat) (b0 b1 : Nat) (C : List Nat) (i : Nat)
    (h : A.length = i) :
    ((A ++ ([b0, b1] ++ C)).getD i 0 = b0)
    ∧ ((A ++ ([b0, b1] ++ C)).getD (i + 1) 0 = b1) := by
  subst h
  exact getD_after A b0 b1 C

/-- Claim C8: updateChecksum folds the seed over the message range from
the current offset to the end; the two bytes it stores big-endian at
offset + 2 (the checksum field) reconstruct 0xFFFF verbatim when the raw
fold equals 0xFFFF and the bit-complement of the fold otherwise; the
message length is preserved and the call reports None. -/
theorem c8_update_checksum (msg : Message) (seed : Nat)
    (hin : msg.offset + 4 ≤ msg.data.length) (_hseed : seed < 65536)
    (_hbytes : ∀ b ∈ msg.data, b < 256) :
    (updateChecksum msg seed).2.data.getD (msg.offset + 2) 0 * 256
        + (updateChecksum msg seed).2.data.getD (msg.offset + 3) 0
      = (if msgFold msg seed msg.offset (msg.data.length - msg.offset) = 65535
         then 65535
         else 65535 - msgFold msg seed msg.offset (msg.data.length - msg.offset))
    ∧ (updateChecksum msg seed).2.data.length = msg.data.length
    ∧ (updateChecksum msg seed).1 = ThreadError.none := by
  have htl : (msg.data.take (msg.offset + 2)).length = msg.offset + 2 := by
    simp only [List.length_take]
    omega
  refine ⟨?_, ?_, rfl⟩
  · simp only [updateChecksum, checksumOffset, writeBytes, List.append_assoc]
    rw [show msg.offset + 3 = msg.offset + 2 + 1 by omega]
    rw [(getD_pair _ _ _ _ _ htl).1, (getD_pair _ _ _ _ _ htl).2]
    by_cases hc : msgFold msg seed msg.offset (msg.data.length - msg.offset) = 65535 <;>
      simp [hc]
    omega
  · simp only [updateChecksum, checksumOffset, writeBytes, List.length_append,
      List.length_drop, List.length_cons, List.length_nil, htl]
    omega

/-- Witness for c8_update_checksum at a concrete message and seed: the
fold is not 0xFFFF, so the stored big-endian bytes reconstruct its
complement, and the length is preserved. -/
theorem c8_witness :
    (updateChecksum (Message.mk [200, 1, 0, 0, 9, 9] 0) 3).2.data.getD 2 0 * 256
        + (updateChecksum (Message.mk [200, 1, 0, 0, 9, 9] 0) 3).2.data.getD 3 0
      = 65535 - msgFold (Message.mk [200, 1, 0, 0, 9, 9] 0) 3 0 6
    ∧ (updateChecksum (Message.mk [200, 1, 0, 0, 9, 9] 0) 3).2.data.length = 6 := by
  have h := c8_update_checksum (Message.mk [200, 1, 0, 0, 9, 9] 0) 3 (by decide) (by decide)
    (by decide)
  exact ⟨h.1.trans (by decide), h.2.1.trans (by decide)⟩

end Icmp6
